import Mathlib

/-!
Shallow embedding of the duo_log_sync consumption / checkpoint / format
pipeline, translated from the Python sources:

* `src/duologsync/consumer/syslog.py`   — `get_syslog_header`
* `src/duologsync/consumer/consumer.py` — `Consumer.consume`,
  `Consumer.format_log`, `Consumer.update_log_checkpoint`
* `src/duologsync/util.py`              — `get_log_offset`

Strings standing for wire bytes keep Python's text form; the trailing
`.encode() + b'\n'` of `format_log` is modelled as appending `"\n"`.
Checkpoint file contents are modelled as `List Char` so that the JSON
integer serialisation performed by `json.dumps` / `json.loads` can be
embedded as executable functions with a proved round trip.
The filesystem is a map `String → Option (List Char)`; `none` models a
path whose `open` raises `OSError`.
-/

deriving instance DecidableEq for Except

/-- ASCII upper-casing of a string, modelling Python's `str.upper()` as used
on the format selectors (which are ASCII). -/
def pyUpper (s : String) : String := String.mk (s.data.map Char.toUpper)

/-- Modelled from the spec: the `Config` wire-format identifier for the
structured-event (CEF) mode.  `config.py` is not part of the provided
sources; the spec's Config-accessor contract fixes only that the two
supported identifiers are distinct. -/
def Config.CEF : String := "CEF"

/-- Modelled from the spec: the `Config` wire-format identifier for the
JSON mode (`config.py` is not part of the provided sources). -/
def Config.JSON : String := "JSON"

/-- Modelled from the spec: the `Config` stream-type tag of the
authentication stream, the one stream type whose default offset needs
second-to-millisecond scaling (`config.py` is not part of the provided
sources; the orchestrator in `duo_log_sync_base.py` uses the endpoint
name `"auth"`). -/
def Config.AUTH : String := "auth"

/-- Timestamp model: a `datetime` carrying `timezone.utc`, split into the
fields that `isoformat` and `strftime` render. -/
structure PyDateTime where
  year : Nat
  month : Nat
  day : Nat
  hour : Nat
  minute : Nat
  second : Nat
  millisecond : Nat
deriving DecidableEq, Repr

/-- Two-digit zero padding, as `%02d` / `isoformat` field rendering. -/
def pad2 (n : Nat) : String := if n < 10 then "0" ++ toString n else toString n

/-- Three-digit zero padding for the millisecond field. -/
def pad3 (n : Nat) : String :=
  if n < 10 then "00" ++ toString n
  else if n < 100 then "0" ++ toString n
  else toString n

/-- Four-digit zero padding for the year field. -/
def pad4 (n : Nat) : String :=
  if n < 10 then "000" ++ toString n
  else if n < 100 then "00" ++ toString n
  else if n < 1000 then "0" ++ toString n
  else toString n

/-- Rendering of `timestamp.isoformat(sep='T', timespec='milliseconds')` for
an aware UTC `datetime`: ISO-8601 with millisecond precision and the
explicit `+00:00` offset. -/
def isoformatMillis (t : PyDateTime) : String :=
  pad4 t.year ++ "-" ++ pad2 t.month ++ "-" ++ pad2 t.day ++ "T" ++
    pad2 t.hour ++ ":" ++ pad2 t.minute ++ ":" ++ pad2 t.second ++ "." ++
    pad3 t.millisecond ++ "+00:00"

/-- Month abbreviations used by `strftime("%b ...")` in the C locale. -/
def monthAbbrev : Nat → String
  | 1 => "Jan"
  | 2 => "Feb"
  | 3 => "Mar"
  | 4 => "Apr"
  | 5 => "May"
  | 6 => "Jun"
  | 7 => "Jul"
  | 8 => "Aug"
  | 9 => "Sep"
  | 10 => "Oct"
  | 11 => "Nov"
  | 12 => "Dec"
  | _ => "???"

/-- Rendering of `timestamp.strftime("%b %d %H:%M:%S")`. -/
def strftimeMonDayTime (t : PyDateTime) : String :=
  monthAbbrev t.month ++ " " ++ pad2 t.day ++ " " ++ pad2 t.hour ++ ":" ++
    pad2 t.minute ++ ":" ++ pad2 t.second

/-- Constant `SYSLOG_VERSION = 1` from `syslog.py`. -/
def SYSLOG_VERSION : Nat := 1

/-- Constant `DEFAULT_PRIORITY = 38` from `syslog.py`. -/
def DEFAULT_PRIORITY : Nat := 38

/-- Embedding of `get_syslog_header(format, timestamp, priority)` from
`syslog.py`.  The hostname returned by `socket.gethostname()` is passed
explicitly since it is an external process identity.  The `ValueError`
raised on an unsupported format becomes `Except.error`. -/
def get_syslog_header (format : String) (timestamp : PyDateTime)
    (priority : Nat) (hostname : String) : Except String String :=
  let syslog_pri := "<" ++ toString priority ++ ">"
  if pyUpper format = "RFC5424" then
    let syslog_pri_version := syslog_pri ++ toString SYSLOG_VERSION
    let syslog_date_time := isoformatMillis timestamp
    let first_part := syslog_pri_version ++ " " ++ syslog_date_time
    Except.ok (first_part ++ " " ++ hostname)
  else if pyUpper format = "RFC3164" then
    let syslog_date_time := strftimeMonDayTime timestamp
    let first_part := syslog_pri ++ syslog_date_time
    Except.ok (first_part ++ " " ++ hostname)
  else
    Except.error (format ++ " is not a supported syslog format")

/-- Module-load state of `syslog.py`: Python evaluates the default-argument
expression `timestamp=datetime.now(timezone.utc)` in the `def` line exactly
once, when the module is imported, and stores the resulting value with the
function object. -/
structure SyslogModuleState where
  default_timestamp : PyDateTime
deriving DecidableEq, Repr

/-- Importing `syslog.py` at wall-clock time `now_at_import` fixes the
stored default timestamp to that moment. -/
def loadSyslogModule (now_at_import : PyDateTime) : SyslogModuleState :=
  ⟨now_at_import⟩

/-- Calling `get_syslog_header` without a `timestamp` argument at wall-clock
time `now_at_call`: the stored module default is used; the call time does
not enter the computation. -/
def get_syslog_header_defaultTimestamp (m : SyslogModuleState)
    (now_at_call : PyDateTime) (format : String) (priority : Nat)
    (hostname : String) : Except String String :=
  get_syslog_header format m.default_timestamp priority hostname

/-- Whitespace predicate of `json.loads`: the characters it skips around a
JSON document. -/
def jsonWS (c : Char) : Bool := c = ' ' || c = '\n' || c = '\t' || c = '\r'

/-- Character for one decimal digit value. -/
def digitToChar (d : Nat) : Char := Char.ofNat (48 + d)

/-- Decimal digit value of a character, `none` on a non-digit. -/
def charToDigit (c : Char) : Option Nat :=
  if 48 ≤ c.toNat && c.toNat ≤ 57 then some (c.toNat - 48) else none

/-- Decimal rendering of a natural number, most significant digit first;
structural recursion on a fuel bound (any `fuel ≥ n` yields the digits of
`n`). -/
def natCharsAux : Nat → Nat → List Char
  | 0, _ => []
  | fuel + 1, n =>
    if n = 0 then []
    else natCharsAux fuel (n / 10) ++ [digitToChar (n % 10)]

/-- Decimal rendering of a natural number as `json.dumps` prints it. -/
def natChars (n : Nat) : List Char :=
  if n = 0 then ['0'] else natCharsAux n n

/-- Left-to-right accumulation of decimal digits; `none` on a non-digit. -/
def parseDigitsAux : List Char → Nat → Option Nat
  | [], acc => some acc
  | c :: cs, acc =>
    match charToDigit c with
    | some d => parseDigitsAux cs (10 * acc + d)
    | none => none

/-- Read a non-empty all-digit character list as a natural number. -/
def parseNatChars (l : List Char) : Option Nat :=
  if l.isEmpty then none else parseDigitsAux l 0

/-- Serialisation performed by `json.dumps` on a Python `int`: an optional
minus sign followed by the decimal digits. -/
def jsonDumpsInt (n : Int) : List Char :=
  if n < 0 then '-' :: natChars n.natAbs else natChars n.toNat

/-- Read an optionally-signed decimal integer. -/
def parseIntChars : List Char → Option Int
  | [] => none
  | c :: cs =>
    if c = '-' then
      match parseNatChars cs with
      | some m => some (-(m : Int))
      | none => none
    else
      match parseNatChars (c :: cs) with
      | some m => some ((m : Int))
      | none => none

/-- Strip the surrounding whitespace that `json.loads` accepts. -/
def stripWS (l : List Char) : List Char :=
  (((l.dropWhile jsonWS).reverse.dropWhile jsonWS).reverse)

/-- Behaviour of `json.loads` on checkpoint-file content restricted to the
integer documents this program writes: strip surrounding whitespace, then
read a signed decimal integer; `none` models `json.JSONDecodeError`. -/
def parseJsonInt (content : List Char) : Option Int :=
  parseIntChars (stripWS content)

/-- Modelling of `os.path.join(directory, filename)` for the flat joins the
program performs. -/
def pathJoin (directory filename : String) : String :=
  directory ++ "/" ++ filename

/-- Checkpoint file path as derived in `Consumer.update_log_checkpoint`
(`consumer.py`): `f"{log_type}_checkpoint_data_" + child_account_id + ".txt"`
under the checkpoint directory when a child account id is present, else
`f"{log_type}_checkpoint_data.txt"`. -/
def update_checkpoint_path (checkpoint_dir log_type : String)
    (child_account_id : Option String) : String :=
  match child_account_id with
  | some cid =>
    pathJoin checkpoint_dir (log_type ++ "_checkpoint_data_" ++ cid ++ ".txt")
  | none => pathJoin checkpoint_dir (log_type ++ "_checkpoint_data.txt")

/-- Checkpoint file path as derived in `get_log_offset` (`util.py`), written
out separately so that the agreement of the two derivations is a theorem
rather than a definition. -/
def read_checkpoint_path (checkpoint_directory log_type : String)
    (child_account_id : Option String) : String :=
  match child_account_id with
  | some cid =>
    pathJoin checkpoint_directory
      (log_type ++ "_checkpoint_data_" ++ cid ++ ".txt")
  | none =>
    pathJoin checkpoint_directory (log_type ++ "_checkpoint_data.txt")

/-- Embedding of `Consumer.update_log_checkpoint(log_type, log_offset,
child_account_id)` from `consumer.py`: open the derived path in `'w'` mode
(truncate), write `json.dumps(log_offset) + '\n'`, close.  The filesystem
is passed and returned explicitly; `Config.get_checkpoint_dir()` is the
`checkpoint_dir` argument. -/
def update_log_checkpoint (checkpoint_dir log_type : String)
    (log_offset : Int) (child_account_id : Option String)
    (fs : String → Option (List Char)) : String → Option (List Char) :=
  fun p =>
    if p = update_checkpoint_path checkpoint_dir log_type child_account_id
    then some (jsonDumpsInt log_offset ++ ['\n'])
    else fs p

/-- Embedding of `get_log_offset(log_type, recover_log_offset,
checkpoint_directory, child_account_id)` from `util.py`.
`Config.get_api_offset()` is the `api_offset` argument.  The default is
scaled by 1000 for the auth stream before any file is consulted.  A
filesystem `none` models `OSError` on `open`, which the source catches and
logs; a content that fails to parse models `json.JSONDecodeError`, which
the source does not catch — it is returned as `Except.error`. -/
def get_log_offset (log_type : String) (recover_log_offset : Bool)
    (checkpoint_directory : String) (child_account_id : Option String)
    (api_offset : Int) (fs : String → Option (List Char)) :
    Except String Int :=
  let log_offset := if log_type = Config.AUTH
    then api_offset * 1000 else api_offset
  if recover_log_offset then
    let checkpoint_file_path :=
      read_checkpoint_path checkpoint_directory log_type child_account_id
    match fs checkpoint_file_path with
    | none => Except.ok log_offset
    | some content =>
      match parseJsonInt content with
      | some v => Except.ok v
      | none => Except.error "json.JSONDecodeError"
  else
    Except.ok log_offset

/-- State of one `Consumer` instance together with the behaviour of its
external collaborators, over an abstract record type `α` and offset type
`β`.  The fields mirror `Consumer.__init__` and the spec's collaborator
contracts:

* `log_format`, `syslogEnabled`, `syslogFormat`, `hostname` — the consumer's
  wire-format selector and the `Config` syslog accessors plus
  `socket.gethostname()`;
* `cefEncode` — the external `log_to_cef(log, keys_to_labels)` encoder with
  the instance's label table applied (`cef.py` is an external encoder per
  the spec);
* `jsonDumps` — `json.dumps` on a record;
* `timestampOf` — `datetime.fromtimestamp(log["timestamp"], tz=timezone.utc)`;
* `stamp` — the in-place `log['child_account_id'] = ...` injection performed
  when a child account id is configured (the identity function otherwise);
* `writeOk` — the outcome of `await writer.write(...)` on a record: `false`
  models `BrokenPipeError` (the Writer contract's connection-reset error);
* `extractOffset` — modelled from the spec: `Producer.get_log_offset`
  (`producer.py` is not among the provided sources; the spec gives the
  contract `extractOffset(record | none) -> Offset`). -/
structure ConsumerCfg (α β : Type) where
  log_format : String
  cefEncode : α → String
  jsonDumps : α → String
  syslogEnabled : Bool
  syslogFormat : String
  hostname : String
  timestampOf : α → PyDateTime
  stamp : α → α
  writeOk : α → Bool
  extractOffset : Option α → β

/-- Embedding of `Consumer.format_log(log)` from `consumer.py`: dispatch on
the wire-format selector; in JSON mode optionally prepend a syslog header
(space-separated); the `ValueError` on an unsupported selector and any
error from `get_syslog_header` become `Except.error`.  The final
`formatted_log.encode() + b'\n'` is the trailing `"\n"`. -/
def Consumer.format_log (cfg : ConsumerCfg α β) (log : α) :
    Except String String :=
  if cfg.log_format = Config.CEF then
    Except.ok (cfg.cefEncode log ++ "\n")
  else if cfg.log_format = Config.JSON then
    let formatted_log := cfg.jsonDumps log
    if cfg.syslogEnabled then
      match get_syslog_header cfg.syslogFormat (cfg.timestampOf log)
          DEFAULT_PRIORITY cfg.hostname with
      | Except.ok syslog_header =>
        Except.ok (syslog_header ++ " " ++ formatted_log ++ "\n")
      | Except.error e => Except.error e
    else
      Except.ok (formatted_log ++ "\n")
  else
    Except.error (cfg.log_format ++ " is not a supported log format")

/-- Result of the `for log in logs:` loop inside `Consumer.consume`:

* `formatCalls` — records (after stamping) on which `format_log` was
  invoked, in order;
* `writerCalls` — records whose formatted line was passed to
  `writer.write`, in order (the record of a write that raises is included:
  the call was made);
* `lastLogWritten` — the `last_log_written` variable, assigned only after a
  write returns successfully;
* `brokenPipe` — whether a write raised `BrokenPipeError` (caught by the
  `except` clause, which calls `Program.initiate_shutdown` once);
* `escapedError` — whether `format_log` raised; that `ValueError` is not
  caught by `except BrokenPipeError` and propagates out of `consume` after
  the `finally` clause runs. -/
structure BatchResult (α : Type) where
  formatCalls : List α
  writerCalls : List α
  lastLogWritten : Option α
  brokenPipe : Bool
  escapedError : Bool
deriving DecidableEq, Repr

/-- Embedding of the record loop of `Consumer.consume` (`consumer.py`):
stamp, format, write, then advance `last_log_written`; stop at the first
raising call. -/
def processLogs (cfg : ConsumerCfg α β) :
    List α → Option α → BatchResult α
  | [], last => ⟨[], [], last, false, false⟩
  | log :: rest, last =>
    let log2 := cfg.stamp log
    match Consumer.format_log cfg log2 with
    | Except.error _ => ⟨[log2], [], last, false, true⟩
    | Except.ok _ =>
      if cfg.writeOk log2 then
        let r := processLogs cfg rest (some log2)
        ⟨log2 :: r.formatCalls, log2 :: r.writerCalls, r.lastLogWritten,
          r.brokenPipe, r.escapedError⟩
      else
        ⟨[log2], [log2], last, true, false⟩

/-- Observable effects of `Consumer.consume` on one batch taken from the
queue while the program is running:

* `checkpointWrite = some o` — the `finally` clause called
  `update_log_checkpoint` with offset `o`; `none` — no checkpoint
  interaction at all (the empty-batch branch);
* `shutdownRequests` — number of `Program.initiate_shutdown` calls. -/
structure ConsumeEffects (α β : Type) where
  formatCalls : List α
  writerCalls : List α
  checkpointWrite : Option β
  shutdownRequests : Nat
  escapedError : Bool
deriving DecidableEq, Repr

/-- Embedding of the per-batch body of `Consumer.consume`: the `if logs:`
guard, the record loop in a `try`, the `except BrokenPipeError` clause and
the `finally` clause, which always computes
`Producer.get_log_offset(last_log_written)` and calls
`update_log_checkpoint` when the batch was non-empty. -/
def consumeBatch (cfg : ConsumerCfg α β) (logs : List α) :
    ConsumeEffects α β :=
  if logs.isEmpty then ⟨[], [], none, 0, false⟩
  else
    let r := processLogs cfg logs none
    ⟨r.formatCalls, r.writerCalls,
      some (cfg.extractOffset r.lastLogWritten),
      if r.brokenPipe then 1 else 0, r.escapedError⟩

/-- How the `consume` loop ended in a modelled run: `normal` — the
`while Program.is_running()` condition became false and the shutdown log
line was reached; `errored` — an uncaught exception propagated out of the
loop; `waiting` — the run's event schedule was exhausted while the
consumer was still blocked on `await self.log_queue.get()`. -/
inductive ConsumerExit where
  | normal
  | errored
  | waiting
deriving DecidableEq, Repr

/-- Effects of a whole modelled run of `Consumer.consume`. -/
structure RunResult (α β : Type) where
  effects : List (ConsumeEffects α β)
  exit : ConsumerExit
deriving DecidableEq, Repr

/-- Embedding of the `while Program.is_running():` loop of
`Consumer.consume`.  Each event `(running, batch)` is one return from
`await self.log_queue.get()` paired with the value of the running flag at
that wake (the flag may have been changed by other tasks during the
suspension).  If the flag is false the batch is discarded (`continue`) and,
since no suspension point lies between the `continue` and the loop
condition, the loop exits at once.  After a batch in which this consumer
itself called `Program.initiate_shutdown`, the loop condition is likewise
false and the loop exits.  An uncaught `ValueError` from `format_log` ends
the task abnormally after its batch's `finally` clause ran. -/
def consumeRun (cfg : ConsumerCfg α β) :
    List (Bool × List α) → RunResult α β
  | [] => ⟨[], ConsumerExit.waiting⟩
  | (running, batch) :: rest =>
    if running then
      let e := consumeBatch cfg batch
      if e.escapedError then ⟨[e], ConsumerExit.errored⟩
      else if e.shutdownRequests ≠ 0 then ⟨[e], ConsumerExit.normal⟩
      else
        let r := consumeRun cfg rest
        ⟨e :: r.effects, r.exit⟩
    else ⟨[], ConsumerExit.normal⟩

/-- Concrete consumer over `Nat` records and `Int` offsets used to evaluate
the model: JSON wire format, syslog wrapping disabled, no child account,
write outcome given by `wr`, and the offset of a record equal to the
record itself (0 when no record was written). -/
def natCfg (wr : Nat → Bool) : ConsumerCfg Nat Int where
  log_format := Config.JSON
  cefEncode := fun n => toString n
  jsonDumps := fun n => toString n
  syslogEnabled := false
  syslogFormat := "RFC5424"
  hostname := "host"
  timestampOf := fun _ => ⟨1970, 1, 1, 0, 0, 0, 0⟩
  stamp := fun n => n
  writeOk := wr
  extractOffset := fun o => (o.getD 0 : Nat)

/-- The five-record scenario of the spec's connection-reset test: writes
succeed on records 1 and 2 and raise `BrokenPipeError` on record 3. -/
def cfg3 : ConsumerCfg Nat Int := natCfg (fun r => !(r == 3))

/-- A consumer configured with the unsupported wire-format selector
`"xml"`. -/
def cfgXml : ConsumerCfg Nat Int :=
  { natCfg (fun _ => true) with log_format := "xml" }

/-! Auxiliary lemmas about the decimal codec. -/

theorem charToDigit_digitToChar (d : Nat) (h : d < 10) :
    charToDigit (digitToChar d) = some d := by
  interval_cases d <;> decide

theorem digitToChar_toNat (d : Nat) (h : d < 10) :
    (digitToChar d).toNat = 48 + d := by
  interval_cases d <;> decide

theorem parseDigitsAux_append (l1 l2 : List Char) :
    ∀ acc, parseDigitsAux (l1 ++ l2) acc =
      (parseDigitsAux l1 acc).bind (fun a => parseDigitsAux l2 a) := by
  induction l1 with
  | nil => intro acc; rfl
  | cons c cs ih =>
    intro acc
    cases h : charToDigit c with
    | none => simp [parseDigitsAux, h]
    | some d => simp [parseDigitsAux, h, ih]

theorem parseDigitsAux_natCharsAux (fuel : Nat) :
    ∀ n acc, n ≤ fuel →
      parseDigitsAux (natCharsAux fuel n) acc =
        some (acc * 10 ^ (natCharsAux fuel n).length + n) := by
  induction fuel with
  | zero =>
    intro n acc hle
    interval_cases n
    simp [natCharsAux, parseDigitsAux]
  | succ fuel ih =>
    intro n acc hle
    by_cases hn : n = 0
    · subst hn; simp [natCharsAux, parseDigitsAux]
    · have hdiv : n / 10 ≤ fuel := by
        have := Nat.div_lt_self (Nat.pos_of_ne_zero hn) (by norm_num : 1 < 10)
        omega
      have hmod : n % 10 < 10 := Nat.mod_lt n (by norm_num)
      simp only [natCharsAux, if_neg hn]
      rw [parseDigitsAux_append, ih (n / 10) acc hdiv]
      show parseDigitsAux [digitToChar (n % 10)]
          (acc * 10 ^ (natCharsAux fuel (n / 10)).length + n / 10) = _
      simp only [parseDigitsAux, charToDigit_digitToChar (n % 10) hmod,
        List.length_append, List.length_cons, List.length_nil]
      have hsplit : 10 * (n / 10) + n % 10 = n := Nat.div_add_mod n 10
      congr 1
      rw [pow_succ]
      calc 10 * (acc * 10 ^ (natCharsAux fuel (n / 10)).length + n / 10) + n % 10
          = acc * (10 ^ (natCharsAux fuel (n / 10)).length * 10) +
              (10 * (n / 10) + n % 10) := by ring
        _ = acc * (10 ^ (natCharsAux fuel (n / 10)).length * 10) + n := by
              rw [hsplit]

theorem natCharsAux_ne_nil (fuel n : Nat) (hn : n ≠ 0) (hle : n ≤ fuel) :
    natCharsAux fuel n ≠ [] := by
  cases fuel with
  | zero => omega
  | succ fuel => simp [natCharsAux, if_neg hn]

theorem natChars_ne_nil (n : Nat) : natChars n ≠ [] := by
  by_cases hn : n = 0
  · subst hn; decide
  · simp only [natChars, if_neg hn]
    exact natCharsAux_ne_nil n n hn le_rfl

theorem parseNatChars_natChars (n : Nat) :
    parseNatChars (natChars n) = some n := by
  by_cases hn : n = 0
  · subst hn; decide
  · simp only [natChars, if_neg hn, parseNatChars]
    rw [if_neg (by simp [List.isEmpty_iff, natCharsAux_ne_nil n n hn le_rfl])]
    rw [parseDigitsAux_natCharsAux n n 0 le_rfl]
    simp

theorem natCharsAux_mem_digit (fuel : Nat) :
    ∀ n c, c ∈ natCharsAux fuel n → ∃ d, d < 10 ∧ c = digitToChar d := by
  induction fuel with
  | zero => intro n c hc; simp [natCharsAux] at hc
  | succ fuel ih =>
    intro n c hc
    by_cases hn : n = 0
    · subst hn; simp [natCharsAux] at hc
    · simp only [natCharsAux, if_neg hn, List.mem_append,
        List.mem_singleton] at hc
      rcases hc with hc | hc
      · exact ih (n / 10) c hc
      · exact ⟨n % 10, Nat.mod_lt n (by norm_num), hc⟩

theorem natChars_mem_digit (n : Nat) (c : Char) (hc : c ∈ natChars n) :
    ∃ d, d < 10 ∧ c = digitToChar d := by
  by_cases hn : n = 0
  · subst hn
    simp only [natChars] at hc
    simp at hc
    exact ⟨0, by norm_num, by rw [hc]; rfl⟩
  · simp only [natChars, if_neg hn] at hc
    exact natCharsAux_mem_digit n n c hc

theorem jsonWS_digitToChar (d : Nat) (h : d < 10) :
    jsonWS (digitToChar d) = false := by
  interval_cases d <;> decide

theorem jsonWS_natChars (n : Nat) (c : Char) (hc : c ∈ natChars n) :
    jsonWS c = false := by
  obtain ⟨d, hd, rfl⟩ := natChars_mem_digit n c hc
  exact jsonWS_digitToChar d hd

theorem jsonWS_jsonDumpsInt (n : Int) (c : Char) (hc : c ∈ jsonDumpsInt n) :
    jsonWS c = false := by
  by_cases hneg : n < 0
  · simp only [jsonDumpsInt, if_pos hneg, List.mem_cons] at hc
    rcases hc with rfl | hc
    · decide
    · exact jsonWS_natChars _ c hc
  · simp only [jsonDumpsInt, if_neg hneg] at hc
    exact jsonWS_natChars _ c hc

theorem jsonDumpsInt_ne_nil (n : Int) : jsonDumpsInt n ≠ [] := by
  by_cases hneg : n < 0
  · simp [jsonDumpsInt, if_pos hneg]
  · simp only [jsonDumpsInt, if_neg hneg]
    exact natChars_ne_nil _

theorem dropWhile_of_head_not (p : Char → Bool) (l : List Char)
    (h : ∀ c ∈ l, p c = false) : l.dropWhile p = l := by
  cases l with
  | nil => rfl
  | cons c cs =>
    rw [List.dropWhile_cons, if_neg]
    simp [h c (List.mem_cons_self c cs)]

theorem stripWS_dumps (n : Int) :
    stripWS (jsonDumpsInt n ++ ['\n']) = jsonDumpsInt n := by
  obtain ⟨c, cs, hcons⟩ := List.exists_cons_of_ne_nil (jsonDumpsInt_ne_nil n)
  have hnotws : ∀ x ∈ jsonDumpsInt n, jsonWS x = false :=
    fun x hx => jsonWS_jsonDumpsInt n x hx
  unfold stripWS
  have h1 : (jsonDumpsInt n ++ ['\n']).dropWhile jsonWS =
      jsonDumpsInt n ++ ['\n'] := by
    rw [hcons, List.cons_append, List.dropWhile_cons, if_neg]
    simp [hnotws c (by rw [hcons]; exact List.mem_cons_self c cs)]
  rw [h1, List.reverse_append]
  show (('\n' :: (jsonDumpsInt n).reverse).dropWhile jsonWS).reverse = _
  rw [List.dropWhile_cons, if_pos (by decide)]
  rw [dropWhile_of_head_not jsonWS (jsonDumpsInt n).reverse
    (fun x hx => hnotws x (List.mem_reverse.mp hx))]
  exact List.reverse_reverse _

theorem parseIntChars_jsonDumpsInt (n : Int) :
    parseIntChars (jsonDumpsInt n) = some n := by
  by_cases hneg : n < 0
  · have habs : -((n.natAbs : Int)) = n := by omega
    rw [jsonDumpsInt, if_pos hneg]
    simp only [parseIntChars, if_pos rfl, parseNatChars_natChars]
    rw [habs]
    simp
  · obtain ⟨c, cs, hcons⟩ := List.exists_cons_of_ne_nil (natChars_ne_nil n.toNat)
    obtain ⟨d, hd, hcd⟩ := natChars_mem_digit n.toNat c
      (by rw [hcons]; exact List.mem_cons_self c cs)
    have hcm : c ≠ '-' := by
      rw [hcd]
      intro he
      have h48 := digitToChar_toNat d hd
      rw [he] at h48
      rw [show ('-').toNat = 45 from rfl] at h48
      omega
    have htn : ((n.toNat : Int)) = n := by omega
    rw [jsonDumpsInt, if_neg hneg, hcons]
    simp only [parseIntChars, if_neg hcm]
    rw [← hcons, parseNatChars_natChars]
    show some ((n.toNat : Int)) = some n
    rw [htn]

theorem parseJsonInt_roundTrip (n : Int) :
    parseJsonInt (jsonDumpsInt n ++ ['\n']) = some n := by
  rw [parseJsonInt, stripWS_dumps, parseIntChars_jsonDumpsInt]

/-- First option if present, else the fallback: the shape in which the
`last_log_written` variable evolves across a batch. -/
def orElseOpt (o fallback : Option α) : Option α :=
  match o with
  | some a => some a
  | none => fallback

theorem orElseOpt_some (a : α) (d : Option α) :
    orElseOpt (some a) d = some a := rfl

theorem orElseOpt_none (d : Option α) : orElseOpt none d = d := rfl

theorem orElseOpt_of_ne_nil (l : List α) (h : l ≠ []) (d d' : Option α) :
    orElseOpt l.getLast? d = orElseOpt l.getLast? d' := by
  rw [List.getLast?_eq_getLast_of_ne_nil h, orElseOpt_some, orElseOpt_some]

theorem processLogs_lastLogWritten (cfg : ConsumerCfg α β)
    (hfmt : ∀ a, ∃ s, Consumer.format_log cfg a = Except.ok s)
    (logs : List α) :
    ∀ last, (processLogs cfg logs last).lastLogWritten =
      orElseOpt ((logs.map cfg.stamp).takeWhile cfg.writeOk).getLast? last := by
  induction logs with
  | nil => intro last; rfl
  | cons log rest ih =>
    intro last
    obtain ⟨s, hs⟩ := hfmt (cfg.stamp log)
    by_cases hw : cfg.writeOk (cfg.stamp log)
    · simp only [processLogs, hs, if_pos hw, List.map_cons,
        List.takeWhile_cons, hw, ite_true]
      rw [ih (some (cfg.stamp log))]
      cases htw : ((rest.map cfg.stamp).takeWhile cfg.writeOk) with
      | nil => rfl
      | cons x xs =>
        rw [List.getLast?_cons_cons]
        exact orElseOpt_of_ne_nil (x :: xs) (by simp) _ _
    · simp only [processLogs, hs, if_neg hw, List.map_cons,
        List.takeWhile_cons, hw, ite_false]
      rfl

theorem orElseOpt_none_fallback (o : Option α) : orElseOpt o none = o := by
  cases o <;> rfl

/-- Claim C1, counterexample.  In the five-record batch where the write of
record 3 raises the connection-reset error, the record being written when
processing stopped is record 3 (the last record passed to the Writer), yet
the offset handed to the Checkpoint Store is the one extracted from record
2 — not `extractOffset` of the record whose write failed, contradicting the
claim that `last_log_written` is updated before the write completes. -/
theorem C1_counterexample :
    (consumeBatch cfg3 [1, 2, 3, 4, 5]).writerCalls.getLast? = some 3 ∧
    (consumeBatch cfg3 [1, 2, 3, 4, 5]).checkpointWrite = some 2 ∧
    (consumeBatch cfg3 [1, 2, 3, 4, 5]).checkpointWrite ≠
      some (cfg3.extractOffset (some 3)) := by decide

/-- Claim C1, amended.  `last_log_written` is assigned only after a write
returns successfully, so for every non-empty batch (under a wire format
that formats every record successfully) the offset passed to the
Checkpoint Store is `extractOffset` of the last record whose write
succeeded — the longest successful prefix of the stamped batch — and
`extractOffset none` when no write succeeded, not the offset of the record
being written when processing stopped. -/
theorem C1_amended (cfg : ConsumerCfg α β) (logs : List α)
    (hfmt : ∀ a, ∃ s, Consumer.format_log cfg a = Except.ok s)
    (hne : logs ≠ []) :
    (consumeBatch cfg logs).checkpointWrite =
      some (cfg.extractOffset
        (((logs.map cfg.stamp).takeWhile cfg.writeOk).getLast?)) := by
  simp only [consumeBatch]
  rw [if_neg (by simp [List.isEmpty_iff, hne])]
  show some (cfg.extractOffset (processLogs cfg logs none).lastLogWritten) = _
  rw [processLogs_lastLogWritten cfg hfmt logs none, orElseOpt_none_fallback]

/-- Claim C1, witness: the amended theorem applied to the concrete
five-record connection-reset batch. -/
theorem C1_witness :
    (consumeBatch cfg3 [1, 2, 3, 4, 5]).checkpointWrite =
      some (cfg3.extractOffset
        ((([1, 2, 3, 4, 5].map cfg3.stamp).takeWhile cfg3.writeOk).getLast?)) :=
  C1_amended cfg3 [1, 2, 3, 4, 5]
    (fun a => ⟨toString a ++ "\n", rfl⟩) (by decide)

/-- Claim C2.  For the batch of five records whose third write raises the
connection-reset error: records 1–3 are the only ones passed to the Writer
(so records 4 and 5 are never written), global shutdown is requested
exactly once, the Checkpoint Store receives exactly the offset extracted
from record 2, and the consume loop then exits normally regardless of any
further queued batches. -/
theorem C2_connection_reset (rest : List (Bool × List Nat)) :
    consumeRun cfg3 ((true, [1, 2, 3, 4, 5]) :: rest) =
      ⟨[⟨[1, 2, 3], [1, 2, 3], some 2, 1, false⟩], ConsumerExit.normal⟩ := by
  have hbatch : consumeBatch cfg3 [1, 2, 3, 4, 5] =
      ⟨[1, 2, 3], [1, 2, 3], some 2, 1, false⟩ := by decide
  simp [consumeRun, hbatch]

/-- Claim C3, counterexample.  With the unsupported wire-format selector
`"xml"`, formatting fails and nothing is passed to the Writer, but the
Checkpoint Store interaction does happen: the `finally` clause of
`Consumer.consume` still calls `update_log_checkpoint` (with the offset
extracted from `None`) before the error propagates, contradicting the
claim that no Checkpoint Store write is performed. -/
theorem C3_counterexample :
    Consumer.format_log cfgXml 7 =
      Except.error "xml is not a supported log format" ∧
    (consumeBatch cfgXml [7]).writerCalls = [] ∧
    (consumeBatch cfgXml [7]).checkpointWrite ≠ none := by decide

/-- Claim C3, amended.  For every record and every wire-format selector
that is neither the structured-event mode nor the JSON mode, `format_log`
fails with the unsupported-format error and no record of the batch is
passed to the Writer; however the `finally` clause still writes a
checkpoint with the offset extracted from `None` (no record was written),
and the error escapes `consume`. -/
theorem C3_amended (cfg : ConsumerCfg α β) (log : α) (logs : List α)
    (h1 : cfg.log_format ≠ Config.CEF) (h2 : cfg.log_format ≠ Config.JSON) :
    Consumer.format_log cfg log =
      Except.error (cfg.log_format ++ " is not a supported log format") ∧
    (consumeBatch cfg (log :: logs)).writerCalls = [] ∧
    (consumeBatch cfg (log :: logs)).checkpointWrite =
      some (cfg.extractOffset none) ∧
    (consumeBatch cfg (log :: logs)).escapedError = true := by
  have hfl : ∀ a, Consumer.format_log cfg a =
      Except.error (cfg.log_format ++ " is not a supported log format") := by
    intro a
    simp only [Consumer.format_log, if_neg h1, if_neg h2]
  have hpl : processLogs cfg (log :: logs) none =
      ⟨[cfg.stamp log], [], none, false, true⟩ := by
    simp only [processLogs, hfl (cfg.stamp log)]
  refine ⟨hfl log, ?_, ?_, ?_⟩ <;> simp [consumeBatch, hpl]

/-- Claim C3, witness: the amended theorem applied to the `"xml"`-configured
consumer on a one-record batch. -/
theorem C3_witness :
    Consumer.format_log cfgXml 7 =
      Except.error (cfgXml.log_format ++ " is not a supported log format") ∧
    (consumeBatch cfgXml (7 :: [])).writerCalls = [] ∧
    (consumeBatch cfgXml (7 :: [])).checkpointWrite =
      some (cfgXml.extractOffset none) ∧
    (consumeBatch cfgXml (7 :: [])).escapedError = true :=
  C3_amended cfgXml 7 [] (by decide) (by decide)

/-- Claim C4, counterexample.  The checkpoint read operation does raise on a
file whose content is unreadable as JSON: with the checkpoint file present
but holding the non-JSON text `garb`, `get_log_offset` propagates the JSON
decode error instead of returning the configured default — only `OSError`
is caught. -/
theorem C4_counterexample :
    get_log_offset "auth" true "/cp" none 5
      (fun _ => some ['g', 'a', 'r', 'b']) =
      Except.error "json.JSONDecodeError" := by decide

/-- Claim C4, amended.  For every stream type, checkpoint directory and
optional child-account tag, the read operation returns the configured
default starting offset (auth-scaled) when the checkpoint file is missing
or unopenable (`OSError`, the only caught error) and logs a
recovery-fallback message; but when the file opens and its content fails
to parse as JSON, the decode error is raised, not caught. -/
theorem C4_amended (lt dir : String) (child : Option String) (api : Int)
    (fs : String → Option (List Char)) :
    (fs (read_checkpoint_path dir lt child) = none →
      get_log_offset lt true dir child api fs =
        Except.ok (if lt = Config.AUTH then api * 1000 else api)) ∧
    (∀ content, fs (read_checkpoint_path dir lt child) = some content →
      parseJsonInt content = none →
      get_log_offset lt true dir child api fs =
        Except.error "json.JSONDecodeError") := by
  constructor
  · intro hmiss
    simp only [get_log_offset, if_true]
    rw [hmiss]
  · intro content hfs hbad
    simp only [get_log_offset, if_true]
    rw [hfs]
    show (match parseJsonInt content with
      | some v => Except.ok v
      | none => Except.error "json.JSONDecodeError") = _
    rw [hbad]

/-- Claim C4, witness: the amended theorem applied to a missing file (falls
back to the unscaled default for a non-auth stream) and to a present file
with unparsable content (raises). -/
theorem C4_witness :
    get_log_offset "telephony" true "/cp" none 5 (fun _ => none) =
      Except.ok (if "telephony" = Config.AUTH then 5 * 1000 else 5) ∧
    get_log_offset "auth" true "/cp" none 5
      (fun _ => some ['g', 'a', 'r', 'b']) =
      Except.error "json.JSONDecodeError" :=
  ⟨(C4_amended "telephony" "/cp" none 5 (fun _ => none)).1 rfl,
   (C4_amended "auth" "/cp" none 5 (fun _ => some ['g', 'a', 'r', 'b'])).2
     ['g', 'a', 'r', 'b'] rfl (by decide)⟩

/-- Claim C5.  For every stream type, numeric offset, optional
child-account tag and prior filesystem state, the checkpoint read path and
write path are derived identically from (stream type, child-account tag),
and writing a checkpoint with `update_log_checkpoint` and then reading it
back with `get_log_offset` returns exactly the written integer (the JSON
serialisation round-trips, preserving the numeric type and ignoring the
default `api` offset). -/
theorem C5_roundtrip (lt dir : String) (child : Option String) (n api : Int)
    (fs : String → Option (List Char)) :
    read_checkpoint_path dir lt child = update_checkpoint_path dir lt child ∧
    get_log_offset lt true dir child api
      (update_log_checkpoint dir lt n child fs) = Except.ok n := by
  have hpath : read_checkpoint_path dir lt child =
      update_checkpoint_path dir lt child := by
    cases child <;> rfl
  refine ⟨hpath, ?_⟩
  simp only [get_log_offset, update_log_checkpoint, eq_self_iff_true, if_true]
  rw [hpath, if_pos rfl]
  show (match parseJsonInt (jsonDumpsInt n ++ ['\n']) with
    | some v => Except.ok v
    | none => Except.error "json.JSONDecodeError") = Except.ok n
  rw [parseJsonInt_roundTrip]

/-- Claim C6.  An empty batch received while the program is running formats
no record, passes nothing to the Writer and performs no Checkpoint Store
write, and the consume loop simply continues with the remaining events. -/
theorem C6_empty_batch (cfg : ConsumerCfg α β) (rest : List (Bool × List α)) :
    consumeBatch cfg ([] : List α) = ⟨[], [], none, 0, false⟩ ∧
    consumeRun cfg ((true, ([] : List α)) :: rest) =
      ⟨⟨[], [], none, 0, false⟩ :: (consumeRun cfg rest).effects,
        (consumeRun cfg rest).exit⟩ := ⟨rfl, rfl⟩

/-- Claim C7.  When the consumer wakes from the queue wait with the running
flag already false, it discards the received batch — even a non-empty one —
performing no formatting, no write, no checkpoint update and no shutdown
request, and terminates at the next loop check without signaling an
error. -/
theorem C7_shutdown_wake (cfg : ConsumerCfg α β) (batch : List α)
    (rest : List (Bool × List α)) :
    consumeRun cfg ((false, batch) :: rest) = ⟨[], ConsumerExit.normal⟩ := rfl

/-- Claim C8.  For the RFC5424 format with priority 38, the syslog header is
exactly `"<38>1 "` (PRI and VERSION concatenated with no space) followed by
the ISO-8601 millisecond-precision timestamp with explicit UTC offset, a
space, and the hostname; in particular the spec's concrete example renders
byte-for-byte. -/
theorem C8_rfc5424_header :
    (∀ (t : PyDateTime) (host : String),
      get_syslog_header "RFC5424" t 38 host =
        Except.ok ("<38>1 " ++ isoformatMillis t ++ " " ++ host)) ∧
    get_syslog_header "RFC5424" ⟨2024, 1, 2, 3, 4, 5, 678⟩ 38 "duohost" =
      Except.ok "<38>1 2024-01-02T03:04:05.678+00:00 duohost" := by
  constructor
  · intro t host
    have hup : pyUpper "RFC5424" = "RFC5424" := by decide
    simp only [get_syslog_header, hup, if_pos]
    have key : ("<" ++ toString (38 : Nat) ++ ">" ++ toString SYSLOG_VERSION)
        ++ " " = "<38>1 " := by decide
    rw [← key]
  · decide

/-- Claim C9.  When no readable checkpoint exists, the starting offset for
the auth stream type is the configured default multiplied by exactly 1000,
while for every other stream type it is the configured default unscaled;
an offset successfully parsed from a checkpoint file is returned without
any scaling. -/
theorem C9_offset_scaling (dir : String) (child : Option String) (api : Int) :
    get_log_offset Config.AUTH true dir child api (fun _ => none) =
      Except.ok (api * 1000) ∧
    (∀ lt, lt ≠ Config.AUTH →
      get_log_offset lt true dir child api (fun _ => none) = Except.ok api) ∧
    (∀ lt (fs : String → Option (List Char)) content n,
      fs (read_checkpoint_path dir lt child) = some content →
      parseJsonInt content = some n →
      get_log_offset lt true dir child api fs = Except.ok n) := by
  refine ⟨?_, ?_, ?_⟩
  · simp only [get_log_offset, if_true]
  · intro lt hlt
    simp only [get_log_offset, if_neg hlt, if_true]
  · intro lt fs content n hfs hparse
    simp only [get_log_offset, if_true]
    rw [hfs]
    show (match parseJsonInt content with
      | some v => Except.ok v
      | none => Except.error "json.JSONDecodeError") = Except.ok n
    rw [hparse]

/-- Claim C9, witness: the scaling theorem applied to a non-auth stream with
no checkpoint file and to the auth stream with a checkpoint file holding
`99`. -/
theorem C9_witness :
    get_log_offset "telephony" true "/cp" none 7 (fun _ => none) =
      Except.ok 7 ∧
    get_log_offset "auth" true "/cp" none 7
      (fun _ => some ['9', '9', '\n']) = Except.ok 99 :=
  ⟨(C9_offset_scaling "/cp" none 7).2.1 "telephony" (by decide),
   (C9_offset_scaling "/cp" none 7).2.2 "auth"
     (fun _ => some ['9', '9', '\n']) ['9', '9', '\n'] 99 rfl (by decide)⟩

/-- Claim C10.  The default value of the `timestamp` parameter of
`get_syslog_header` is the module-import-time clock value, fixed once when
`syslog.py` is loaded: two calls that omit the timestamp argument at
different wall-clock times produce the same header, equal to the header
computed at the import-time timestamp. -/
theorem C10_default_timestamp (imp t1 t2 : PyDateTime) (fmt : String)
    (pri : Nat) (host : String) :
    get_syslog_header_defaultTimestamp (loadSyslogModule imp) t1 fmt pri host =
      get_syslog_header_defaultTimestamp (loadSyslogModule imp) t2 fmt pri
        host ∧
    get_syslog_header_defaultTimestamp (loadSyslogModule imp) t1 fmt pri host =
      get_syslog_header fmt imp pri host := ⟨rfl, rfl⟩
